import Mathlib

/-!
Shallow embedding of the risk-management and trading-engine core of the
`trading-bot-swarm` repository (`src/core/risk_manager.py` and
`src/core/trading_engine.py`).

Modelling conventions:
* Python floats are modelled as exact rationals (`ℚ`); the decimal literals of
  the source (`0.95`, `0.5`, `0.001`, ...) are exact in `ℚ`.
* `round(x, n)` (Python's banker's rounding to `n` decimal digits) is modelled
  by `pyRound`, rounding half to even on the exact rational value.
* Python dicts keyed by symbol are modelled as association lists with the
  dict's update-in-place / append-new-key / delete semantics.
* Wall-clock fields (`opened_at`, `updated_at`, `timestamp`) and logging are
  not modelled; they carry no behavioural content for the properties below.
* `TradingSignal.metadata.get "strategy"` is modelled by the field
  `strategy_name`; `signal.reason` is unused by the embedded code paths.
-/

set_option autoImplicit false

/-- Python `round` to integer with banker's rounding (round half to even). -/
def roundHalfEven (x : ℚ) : ℤ :=
  if x - ⌊x⌋ < 1/2 then ⌊x⌋
  else if 1/2 < x - ⌊x⌋ then ⌊x⌋ + 1
  else if ⌊x⌋ % 2 = 0 then ⌊x⌋ else ⌊x⌋ + 1

/-- Python `round(x, ndigits)` on the exact rational value. -/
def pyRound (x : ℚ) (ndigits : ℕ) : ℚ :=
  (roundHalfEven (x * 10 ^ ndigits) : ℚ) / 10 ^ ndigits

/-- Signal types of `strategy_interface.SignalType`. -/
inductive SignalType where
  | BUY
  | SELL
  | HOLD
  | CLOSE_LONG
  | CLOSE_SHORT
deriving DecidableEq, Repr

/-- Position status of `risk_manager.PositionStatus`. -/
inductive PositionStatus where
  | OPEN
  | CLOSED
  | PARTIAL
deriving DecidableEq, Repr

/-- Position side, the `'LONG'` / `'SHORT'` strings of the source. -/
inductive Side where
  | LONG
  | SHORT
deriving DecidableEq, Repr

/-- The trading signal of `strategy_interface.TradingSignal`
(timestamp, reason and the raw metadata dict are not modelled;
`strategy_name` stands for `metadata.get("strategy", "")`). -/
structure TradingSignal where
  signal_type : SignalType
  symbol : String
  price : ℚ
  quantity : ℚ
  stop_loss : ℚ
  take_profit_1 : ℚ
  take_profit_2 : ℚ
  confidence : ℚ
  strategy_name : String := ""
deriving DecidableEq, Repr

/-- A position, `risk_manager.Position` (datetime fields omitted). -/
structure Position where
  symbol : String
  side : Side
  entry_price : ℚ
  quantity : ℚ
  stop_loss : ℚ
  take_profit_1 : ℚ
  take_profit_2 : ℚ
  current_price : ℚ
  status : PositionStatus := .OPEN
  tp1_hit : Bool := false
  tp2_hit : Bool := false
  remaining_quantity : ℚ := 0
  unrealized_pnl : ℚ := 0
  realized_pnl : ℚ := 0
  strategy : String := ""
  signal_confidence : ℚ := 0
deriving DecidableEq, Repr

/-- The `__post_init__` rule of `Position`: a zero `remaining_quantity`
is replaced by the full `quantity`. -/
def Position.postInit (p : Position) : Position :=
  if p.remaining_quantity = 0 then { p with remaining_quantity := p.quantity } else p

/-- `Position.update_price`: set the current price and recompute the
unrealized PnL of the remaining quantity. -/
def Position.update_price (p : Position) (new_price : ℚ) : Position :=
  let price_diff := match p.side with
    | .LONG => new_price - p.entry_price
    | .SHORT => p.entry_price - new_price
  { p with current_price := new_price,
           unrealized_pnl := price_diff * p.remaining_quantity }

/-- The per-unit PnL used by `close_position` when realizing a tranche
(`current - entry` for LONG, `entry - current` for SHORT). -/
def Position.close_price_diff (p : Position) : ℚ :=
  match p.side with
  | .LONG => p.current_price - p.entry_price
  | .SHORT => p.entry_price - p.current_price

/-- `Position.get_total_pnl`. -/
def Position.get_total_pnl (p : Position) : ℚ :=
  p.realized_pnl + p.unrealized_pnl

/-- Lookup in the `positions` dict (first, and only, binding of a symbol). -/
def lookupPos : List (String × Position) → String → Option Position
  | [], _ => none
  | (k, p) :: rest, sym => if k = sym then some p else lookupPos rest sym

/-- Dict assignment `positions[sym] = p`: replace the existing binding in
place, or append a new one. -/
def setPos : List (String × Position) → String → Position → List (String × Position)
  | [], sym, p => [(sym, p)]
  | (k, q) :: rest, sym, p =>
      if k = sym then (sym, p) :: rest else (k, q) :: setPos rest sym p

/-- Dict deletion `del positions[sym]`. -/
def erasePos : List (String × Position) → String → List (String × Position)
  | [], _ => []
  | (k, q) :: rest, sym =>
      if k = sym then erasePos rest sym else (k, q) :: erasePos rest sym

/-- The risk-manager state, `risk_manager.RiskManager`
(`total_fees` is written once and never read; omitted). -/
structure RiskManager where
  initial_capital : ℚ
  current_capital : ℚ
  max_risk_per_trade : ℚ
  max_portfolio_risk : ℚ
  max_drawdown : ℚ
  max_positions : ℕ
  min_risk_reward : ℚ
  positions : List (String × Position) := []
  position_history : List Position := []
  total_trades : ℕ := 0
  winning_trades : ℕ := 0
  max_historical_capital : ℚ
deriving DecidableEq, Repr

/-- The `RiskManager.__init__` constructor. -/
def RiskManager.new (initial_capital max_risk_per_trade max_portfolio_risk
    max_drawdown : ℚ) (max_positions : ℕ) (min_risk_reward : ℚ) : RiskManager :=
  { initial_capital := initial_capital
    current_capital := initial_capital
    max_risk_per_trade := max_risk_per_trade
    max_portfolio_risk := max_portfolio_risk
    max_drawdown := max_drawdown
    max_positions := max_positions
    min_risk_reward := min_risk_reward
    max_historical_capital := initial_capital }

/-- `RiskManager.get_portfolio_risk`: Σ |entry − stop| × remaining ÷ capital. -/
def RiskManager.get_portfolio_risk (rm : RiskManager) : ℚ :=
  let total_risk :=
    (rm.positions.map
      (fun kv => |kv.2.entry_price - kv.2.stop_loss| * kv.2.remaining_quantity)).sum
  if rm.current_capital = 0 then 0 else total_risk / rm.current_capital

/-- Value computed by `RiskManager.get_current_drawdown` (the method also
persists the updated peak into `max_historical_capital`; that state effect is
modelled separately by `drawdown_peak_update`). -/
def RiskManager.get_current_drawdown (rm : RiskManager) : ℚ :=
  if rm.max_historical_capital = 0 then 0
  else
    let peak := max rm.max_historical_capital rm.current_capital
    max 0 ((peak - rm.current_capital) / peak)

/-- State effect of `get_current_drawdown`: the peak-capital update
(skipped by the early return when the recorded peak is zero). -/
def RiskManager.drawdown_peak_update (rm : RiskManager) : RiskManager :=
  if rm.max_historical_capital = 0 then rm
  else { rm with max_historical_capital :=
                   max rm.max_historical_capital rm.current_capital }

/-- `RiskManager._calculate_risk_reward_ratio` (trailing word of the Python
name dropped): reward to TP1 divided by risk to stop. -/
def RiskManager.calculate_risk_reward (_rm : RiskManager) (signal : TradingSignal) : ℚ :=
  let risk := |signal.price - signal.stop_loss|
  let reward := |signal.take_profit_1 - signal.price|
  if risk = 0 then 0 else reward / risk

/-- `RiskManager.can_open_position`: the admission gate, checked in order. -/
def RiskManager.can_open_position (rm : RiskManager) (signal : TradingSignal) : Bool :=
  if rm.max_positions ≤ rm.positions.length then false
  else if (lookupPos rm.positions signal.symbol).isSome then false
  else if rm.max_portfolio_risk ≤ rm.get_portfolio_risk then false
  else if rm.max_drawdown ≤ rm.get_current_drawdown then false
  else if rm.calculate_risk_reward signal < rm.min_risk_reward then false
  else true

/-- `RiskManager.calculate_position_size`: risk-based size capped by the
95%-of-capital affordability bound, rounded to 8 decimal places. -/
def RiskManager.calculate_position_size (rm : RiskManager) (signal : TradingSignal) : ℚ :=
  let max_risk_amount := rm.current_capital * rm.max_risk_per_trade
  let price_diff := |signal.price - signal.stop_loss|
  if price_diff = 0 then 0
  else
    let position_size := max_risk_amount / price_diff
    let max_affordable := rm.current_capital * (95/100) / signal.price
    pyRound (min position_size max_affordable) 8

/-- `RiskManager.open_position`: create the position and count the trade. -/
def RiskManager.open_position (rm : RiskManager) (signal : TradingSignal)
    (quantity : ℚ) : RiskManager × Position :=
  let side : Side := if signal.signal_type = .BUY then .LONG else .SHORT
  let position : Position := Position.postInit
    { symbol := signal.symbol
      side := side
      entry_price := signal.price
      quantity := quantity
      stop_loss := signal.stop_loss
      take_profit_1 := signal.take_profit_1
      take_profit_2 := signal.take_profit_2
      current_price := signal.price
      strategy := signal.strategy_name
      signal_confidence := signal.confidence }
  ({ rm with positions := setPos rm.positions signal.symbol position,
             total_trades := rm.total_trades + 1 }, position)

/-- `RiskManager._should_stop_loss` (`self` unused by the source). -/
def should_stop_loss (position : Position) : Bool :=
  match position.side with
  | .LONG => decide (position.current_price ≤ position.stop_loss)
  | .SHORT => decide (position.stop_loss ≤ position.current_price)

/-- `RiskManager._should_take_profit_1` (`self` unused by the source). -/
def should_take_profit_1 (position : Position) : Bool :=
  match position.side with
  | .LONG => decide (position.take_profit_1 ≤ position.current_price)
  | .SHORT => decide (position.current_price ≤ position.take_profit_1)

/-- `RiskManager._should_take_profit_2` (`self` unused by the source). -/
def should_take_profit_2 (position : Position) : Bool :=
  match position.side with
  | .LONG => decide (position.take_profit_2 ≤ position.current_price)
  | .SHORT => decide (position.current_price ≤ position.take_profit_2)

/-- `RiskManager.update_position`: refresh the price, then check stop-loss,
then TP1 (only if not yet hit), then TP2 (only after TP1). -/
def RiskManager.update_position (rm : RiskManager) (symbol : String)
    (current_price : ℚ) : RiskManager × Option String :=
  match lookupPos rm.positions symbol with
  | none => (rm, none)
  | some position =>
    let position := position.update_price current_price
    let rm1 := { rm with positions := setPos rm.positions symbol position }
    if should_stop_loss position then (rm1, some "stop_loss")
    else if !position.tp1_hit && should_take_profit_1 position then
      (rm1, some "take_profit_1")
    else if position.tp1_hit && !position.tp2_hit && should_take_profit_2 position then
      (rm1, some "take_profit_2")
    else (rm1, none)

/-- `RiskManager.close_position` (the Python parameter `partial_close` is
named `closeFrac` here): realize the PnL of the closed tranche into capital,
count a winning trade on positive realized PnL, apply the reason-specific
status changes, and finalize when the remainder falls to dust (≤ 0.001). -/
def RiskManager.close_position (rm : RiskManager) (symbol : String)
    (reason : String) (closeFrac : ℚ) : RiskManager × Option Position :=
  match lookupPos rm.positions symbol with
  | none => (rm, none)
  | some position =>
    let close_quantity := position.remaining_quantity * closeFrac
    let realized_pnl := position.close_price_diff * close_quantity
    let position := { position with
      realized_pnl := position.realized_pnl + realized_pnl,
      remaining_quantity := position.remaining_quantity - close_quantity }
    let rm1 := { rm with
      current_capital := rm.current_capital + realized_pnl,
      winning_trades :=
        if 0 < realized_pnl then rm.winning_trades + 1 else rm.winning_trades }
    let position :=
      if reason = "take_profit_1" then
        { position with tp1_hit := true, status := .PARTIAL,
                        stop_loss := position.entry_price }
      else if reason = "take_profit_2" then
        { position with tp2_hit := true, status := .CLOSED }
      else if 1 ≤ closeFrac then
        { position with status := .CLOSED }
      else position
    if position.remaining_quantity ≤ 1/1000 then
      let position := { position with status := .CLOSED }
      ({ rm1 with positions := erasePos rm.positions symbol,
                  position_history := rm.position_history ++ [position] },
       some position)
    else
      ({ rm1 with positions := setPos rm.positions symbol position }, some position)

/-- The `win_rate` field of `RiskManager.get_portfolio_summary`
(percentage of winning closes per opened trade, rounded to 2 digits). -/
def RiskManager.summary_win_rate (rm : RiskManager) : ℚ :=
  pyRound
    (if 0 < rm.total_trades then
       (rm.winning_trades : ℚ) / (rm.total_trades : ℚ) * 100
     else 0) 2

/-- A market candle, `market_data.OHLCVData` (timestamp omitted; the Python
field `open` is `open_p` here, `open` being a Lean keyword). -/
structure OHLCVData where
  open_p : ℚ
  high : ℚ
  low : ℚ
  close : ℚ
  volume : ℚ
  symbol : String
deriving DecidableEq, Repr

/-- The trading engine, `trading_engine.TradingEngine`, parameterized over
the state type `σ` of the plugged-in strategy; `strategy_update` is the
strategy's `update(ohlcv)` method (state in, state and optional signal out).
Market-data plumbing, config and logging are not modelled. -/
structure TradingEngine (σ : Type) where
  is_running : Bool := false
  is_trading_enabled : Bool := true
  risk_manager : RiskManager
  strategy : σ
  strategy_update : σ → OHLCVData → σ × Option TradingSignal
  last_signal : Option TradingSignal := none
  signals_generated : ℕ := 0
  trades_executed : ℕ := 0

/-- `TradingEngine._execute_trade`: open the position and count the trade
(the exchange interface is simulated by the source itself). -/
def TradingEngine.execute_trade {σ : Type} (eng : TradingEngine σ)
    (signal : TradingSignal) (quantity : ℚ) : TradingEngine σ :=
  let rp := eng.risk_manager.open_position signal quantity
  { eng with risk_manager := rp.1, trades_executed := eng.trades_executed + 1 }

/-- `TradingEngine._close_position`: manual full close when the symbol has an
open position. -/
def TradingEngine.close_position_manual {σ : Type} (eng : TradingEngine σ)
    (symbol : String) (reason : String) : TradingEngine σ :=
  if (lookupPos eng.risk_manager.positions symbol).isSome then
    { eng with risk_manager := (eng.risk_manager.close_position symbol reason 1).1 }
  else eng

/-- `TradingEngine._process_signal`: BUY/SELL go through admission, sizing and
the positivity check before opening; CLOSE_* go through a manual full close. -/
def TradingEngine.process_signal {σ : Type} (eng : TradingEngine σ)
    (signal : TradingSignal) : TradingEngine σ :=
  if signal.signal_type = .BUY ∨ signal.signal_type = .SELL then
    if !(eng.risk_manager.can_open_position signal) then eng
    else
      let quantity := eng.risk_manager.calculate_position_size signal
      if quantity ≤ 0 then eng
      else eng.execute_trade signal quantity
  else if signal.signal_type = .CLOSE_LONG ∨ signal.signal_type = .CLOSE_SHORT then
    eng.close_position_manual signal.symbol "manual_close"
  else eng

/-- `TradingEngine._handle_position_exit`: TP1 closes 50% of the remaining
quantity, every other exit action closes in full. -/
def TradingEngine.handle_position_exit {σ : Type} (eng : TradingEngine σ)
    (symbol : String) (exit_action : String) : TradingEngine σ :=
  let closeFrac : ℚ := if exit_action = "take_profit_1" then 1/2 else 1
  { eng with risk_manager :=
      (eng.risk_manager.close_position symbol exit_action closeFrac).1 }

/-- `TradingEngine._update_positions`: push the price through every open
symbol and react to the returned exit action. -/
def TradingEngine.update_positions {σ : Type} (eng : TradingEngine σ)
    (current_price : ℚ) : TradingEngine σ :=
  let symbols := eng.risk_manager.positions.map (fun kv => kv.1)
  symbols.foldl
    (fun e symbol =>
      let ru := e.risk_manager.update_position symbol current_price
      let e1 := { e with risk_manager := ru.1 }
      match ru.2 with
      | some action => e1.handle_position_exit symbol action
      | none => e1)
    eng

/-- `TradingEngine._on_market_data`: the candle path. With trading disabled it
returns at once; otherwise it feeds the strategy, routes any signal, then
updates all positions with the candle's close. -/
def TradingEngine.on_market_data {σ : Type} (eng : TradingEngine σ)
    (ohlcv : OHLCVData) : TradingEngine σ :=
  if !eng.is_trading_enabled then eng
  else
    let su := eng.strategy_update eng.strategy ohlcv
    let eng1 := { eng with strategy := su.1 }
    let eng2 := match su.2 with
      | some signal =>
        let engS := { eng1 with signals_generated := eng1.signals_generated + 1,
                                last_signal := some signal }
        engS.process_signal signal
      | none => eng1
    eng2.update_positions ohlcv.close

/-- `TradingEngine._on_ticker_data`: the ticker path only refreshes position
prices (no strategy step, independent of the trading-enabled flag). -/
def TradingEngine.on_ticker_data {σ : Type} (eng : TradingEngine σ)
    (price : ℚ) : TradingEngine σ :=
  eng.update_positions price

/-- One externally invokable risk-manager operation (the query constructors
cover `get_portfolio_risk`, `get_current_drawdown` and
`get_portfolio_summary`). -/
inductive RMOp where
  | opn (signal : TradingSignal) (quantity : ℚ)
  | update (symbol : String) (price : ℚ)
  | close (symbol : String) (reason : String) (closeFrac : ℚ)
  | query_risk
  | query_drawdown
  | query_summary
deriving Repr

/-- State transition of one risk-manager operation (queries are read-only
except for the peak-capital refresh inside `get_current_drawdown`). -/
def RMOp.step (rm : RiskManager) : RMOp → RiskManager
  | .opn signal quantity => (rm.open_position signal quantity).1
  | .update symbol price => (rm.update_position symbol price).1
  | .close symbol reason closeFrac => (rm.close_position symbol reason closeFrac).1
  | .query_risk => rm
  | .query_drawdown => rm.drawdown_peak_update
  | .query_summary => rm.drawdown_peak_update

/-- Realized-PnL delta of an operation: the PnL of the closed tranche for a
`close` that finds its position, zero for everything else. -/
def RMOp.capitalDelta (rm : RiskManager) : RMOp → ℚ
  | .close symbol _ closeFrac =>
      match lookupPos rm.positions symbol with
      | none => 0
      | some position => position.close_price_diff * (position.remaining_quantity * closeFrac)
  | _ => 0

/-- Whether an operation is a `close_position` call. -/
def RMOp.isClose : RMOp → Bool
  | .close _ _ _ => true
  | _ => false

/-- Run a sequence of operations from a starting state. -/
def RMOp.run (rm : RiskManager) : List RMOp → RiskManager
  | [] => rm
  | op :: rest => RMOp.run (RMOp.step rm op) rest


/-! Concrete states used by the scenario theorems and witnesses below. -/

/-- The default risk-manager configuration of the engine: 2% risk per trade,
10% portfolio risk, 15% drawdown, 5 positions, 1.5 minimum risk-reward. -/
def rmDefault10k : RiskManager :=
  RiskManager.new 10000 (2/100) (1/10) (3/20) 5 (3/2)

/-- The BUY signal of the NOICEUSDT scenario: entry 1.0, stop 0.95,
TP1 1.10, TP2 1.20. -/
def sigNoice : TradingSignal :=
  { signal_type := .BUY, symbol := "NOICEUSDT", price := 1, quantity := 0,
    stop_loss := 19/20, take_profit_1 := 11/10, take_profit_2 := 6/5,
    confidence := 1 }

/-- State after opening the NOICEUSDT scenario position with quantity 10. -/
def rmNoiceOpen : RiskManager := (rmDefault10k.open_position sigNoice 10).1

/-- Engine holding the opened NOICEUSDT position (inert strategy). -/
def engNoice : TradingEngine Unit :=
  { risk_manager := rmNoiceOpen, strategy := (),
    strategy_update := fun s _ => (s, none) }

/-- Engine state after the price update to 1.10 (the TP1 tick). -/
def engNoiceA : TradingEngine Unit := engNoice.update_positions (11/10)

/-- Engine state after the subsequent price update to 0.99 (the stop tick). -/
def engNoiceB : TradingEngine Unit := engNoiceA.update_positions (99/100)

/-- A LONG position whose stop (20) lies above TP1 (15), so that a single
price update can satisfy both exit conditions at once. -/
def posBoth : Position :=
  { symbol := "W", side := .LONG, entry_price := 10, quantity := 1,
    stop_loss := 20, take_profit_1 := 15, take_profit_2 := 40,
    current_price := 10, remaining_quantity := 1 }

/-- Risk manager holding `posBoth`. -/
def rmBoth : RiskManager :=
  { initial_capital := 1000, current_capital := 1000, max_risk_per_trade := 1,
    max_portfolio_risk := 1, max_drawdown := 1, max_positions := 5,
    min_risk_reward := 1, positions := [("W", posBoth)],
    max_historical_capital := 1000 }

/-- An open LONG position used by the disabled-trading counterexample. -/
def posC3 : Position :=
  { symbol := "NOICEUSDT", side := .LONG, entry_price := 10, quantity := 2,
    stop_loss := 8, take_profit_1 := 12, take_profit_2 := 15,
    current_price := 10, remaining_quantity := 2 }

/-- Risk manager holding `posC3`. -/
def rmC3 : RiskManager :=
  { initial_capital := 1000, current_capital := 1000, max_risk_per_trade := 1,
    max_portfolio_risk := 1, max_drawdown := 1, max_positions := 5,
    min_risk_reward := 1, positions := [("NOICEUSDT", posC3)],
    max_historical_capital := 1000 }

/-- A BUY signal that the strategy of `engC3` always emits. -/
def sigC3 : TradingSignal :=
  { signal_type := .BUY, symbol := "NOICEUSDT", price := 11, quantity := 0,
    stop_loss := 10, take_profit_1 := 13, take_profit_2 := 14, confidence := 1 }

/-- A candle whose close (12) differs from the held position's price (10). -/
def candleC3 : OHLCVData :=
  { open_p := 10, high := 12, low := 9, close := 12, volume := 1,
    symbol := "NOICEUSDT" }

/-- Engine with trading disabled whose strategy always returns `sigC3`. -/
def engC3 : TradingEngine Unit :=
  { is_trading_enabled := false, risk_manager := rmC3, strategy := (),
    strategy_update := fun s _ => (s, some sigC3) }

/-- A LONG position with risk-at-stop `|entry − stop| × remaining = 230`. -/
def riskPos (sym : String) : Position :=
  { symbol := sym, side := .LONG, entry_price := 2, quantity := 230,
    stop_loss := 1, take_profit_1 := 4, take_profit_2 := 6,
    current_price := 2, remaining_quantity := 230 }

/-- Default-configured manager already carrying 4 positions with total
risk-at-stop 920 (portfolio risk 0.092, just under the 0.10 ceiling). -/
def rm4 : RiskManager :=
  { rmDefault10k with positions :=
      [("P1", riskPos "P1"), ("P2", riskPos "P2"),
       ("P3", riskPos "P3"), ("P4", riskPos "P4")] }

/-- A fresh BUY signal (entry 100, stop 98, TP1 103) for a fifth position. -/
def sig4 : TradingSignal :=
  { signal_type := .BUY, symbol := "NEW", price := 100, quantity := 0,
    stop_loss := 98, take_profit_1 := 103, take_profit_2 := 106,
    confidence := 1 }

/-- A BUY signal (entry 3, stop 2.999) whose affordability cap
0.95 × 10000 ÷ 3 is not representable in 8 decimal digits. -/
def sig5 : TradingSignal :=
  { signal_type := .BUY, symbol := "C5S", price := 3, quantity := 0,
    stop_loss := 2999/1000, take_profit_1 := 4, take_profit_2 := 5,
    confidence := 1 }

/-- The sizing scenario signal: entry 100, stop 98. -/
def sigC6 : TradingSignal :=
  { signal_type := .BUY, symbol := "NOICEUSDT", price := 100, quantity := 0,
    stop_loss := 98, take_profit_1 := 103, take_profit_2 := 106,
    confidence := 1 }

/-- An OPEN position holding only dust: remaining quantity 0.002. -/
def posDust : Position :=
  { symbol := "D", side := .LONG, entry_price := 1, quantity := 1/500,
    stop_loss := 19/20, take_profit_1 := 11/10, take_profit_2 := 6/5,
    current_price := 11/10, remaining_quantity := 1/500 }

/-- Risk manager holding `posDust`. -/
def rmDust : RiskManager :=
  { initial_capital := 100, current_capital := 100, max_risk_per_trade := 2/100,
    max_portfolio_risk := 1/10, max_drawdown := 3/20, max_positions := 5,
    min_risk_reward := 3/2, positions := [("D", posDust)],
    max_historical_capital := 100 }

/-- An OPEN LONG position of ample size, currently in profit. -/
def posW7 : Position :=
  { symbol := "W7", side := .LONG, entry_price := 10, quantity := 10,
    stop_loss := 9, take_profit_1 := 11, take_profit_2 := 12,
    current_price := 11, remaining_quantity := 10 }

/-- Risk manager holding `posW7`. -/
def rmW7 : RiskManager :=
  { initial_capital := 1000, current_capital := 1000, max_risk_per_trade := 1,
    max_portfolio_risk := 1, max_drawdown := 1, max_positions := 5,
    min_risk_reward := 1, positions := [("W7", posW7)],
    max_historical_capital := 1000 }

/-- A risk manager with no open positions. -/
def rmEmpty : RiskManager :=
  { initial_capital := 1000, current_capital := 1000, max_risk_per_trade := 1,
    max_portfolio_risk := 1, max_drawdown := 1, max_positions := 5,
    min_risk_reward := 1, max_historical_capital := 1000 }

/-- NOICEUSDT scenario, profitable two-tranche close: state after the TP1
tick's `update_position`. -/
def rm10b : RiskManager := (rmNoiceOpen.update_position "NOICEUSDT" (11/10)).1

/-- State after the TP1 half close. -/
def rm10c : RiskManager := (rm10b.close_position "NOICEUSDT" "take_profit_1" (1/2)).1

/-- State after the TP2 tick's `update_position` (price 1.20). -/
def rm10d : RiskManager := (rm10c.update_position "NOICEUSDT" (6/5)).1

/-- State after the TP2 full close: both tranches realized profitably. -/
def rm10e : RiskManager := (rm10d.close_position "NOICEUSDT" "take_profit_2" 1).1

/-! Helper lemmas. -/

/-- Banker's rounding never overshoots by more than one half. -/
theorem roundHalfEven_le (x : ℚ) : (roundHalfEven x : ℚ) ≤ x + 1/2 := by
  have hf : (⌊x⌋ : ℚ) ≤ x := Int.floor_le x
  unfold roundHalfEven
  split_ifs with h1 h2 h3
  · linarith
  · push_cast
    linarith
  · linarith
  · push_cast
    have h4 : (1:ℚ)/2 ≤ x - ⌊x⌋ := le_of_not_lt h1
    linarith

/-- Banker's rounding of a nonnegative rational is nonnegative. -/
theorem roundHalfEven_nonneg (x : ℚ) (hx : 0 ≤ x) : 0 ≤ roundHalfEven x := by
  have hf : 0 ≤ ⌊x⌋ := Int.floor_nonneg.mpr hx
  unfold roundHalfEven
  split_ifs <;> omega

/-- Rounding to 8 decimal digits overshoots by at most half an ulp
(`1/200000000 = 5 × 10⁻⁹`). -/
theorem pyRound8_le (x : ℚ) : pyRound x 8 ≤ x + 1/200000000 := by
  unfold pyRound
  have h8 : (0:ℚ) < 10 ^ (8:ℕ) := by positivity
  rw [div_le_iff₀ h8]
  calc (roundHalfEven (x * 10 ^ (8:ℕ)) : ℚ)
      ≤ x * 10 ^ (8:ℕ) + 1/2 := roundHalfEven_le _
    _ = (x + 1/200000000) * 10 ^ (8:ℕ) := by norm_num; ring

/-- Rounding a nonnegative rational to 8 decimal digits stays nonnegative. -/
theorem pyRound8_nonneg (x : ℚ) (hx : 0 ≤ x) : 0 ≤ pyRound x 8 := by
  unfold pyRound
  apply div_nonneg
  · exact_mod_cast roundHalfEven_nonneg _ (by positivity)
  · positivity

/-- Looking up a symbol right after storing it returns the stored position. -/
theorem lookupPos_setPos (ps : List (String × Position)) (sym : String)
    (p : Position) : lookupPos (setPos ps sym p) sym = some p := by
  induction ps with
  | nil => simp [setPos, lookupPos]
  | cons kv rest ih =>
    obtain ⟨k, q⟩ := kv
    by_cases hk : k = sym
    · simp [setPos, hk, lookupPos]
    · simp [setPos, hk, lookupPos, ih]

/-! Claim theorems. -/

/-- C9: calling `close_position` or `update_position` with a symbol that has
no open position returns `None` and leaves the entire risk-manager state
unchanged (capital, counters, open position set and history included). -/
theorem C9_missing_symbol_noop (rm : RiskManager) (symbol reason : String)
    (closeFrac price : ℚ) (h : lookupPos rm.positions symbol = none) :
    rm.close_position symbol reason closeFrac = (rm, none)
    ∧ rm.update_position symbol price = (rm, none) := by
  constructor
  · simp [RiskManager.close_position, h]
  · simp [RiskManager.update_position, h]

/-- Witness for C9 at a concrete empty risk manager. -/
theorem C9_missing_symbol_noop_witness :
    lookupPos rmEmpty.positions "X" = none
    ∧ rmEmpty.close_position "X" "stop_loss" 1 = (rmEmpty, none)
    ∧ rmEmpty.update_position "X" 5 = (rmEmpty, none) :=
  ⟨rfl, (C9_missing_symbol_noop rmEmpty "X" "stop_loss" 1 5 rfl).1,
    (C9_missing_symbol_noop rmEmpty "X" "stop_loss" 1 5 rfl).2⟩

/-- C2: on every price update of an open position, `update_position` checks
the stop-loss first, then TP1 (only if `tp1_hit` is false), then TP2 (only if
TP1 was hit and TP2 was not); whenever the stop-loss condition holds — in
particular when a take-profit level would fire on the same update — the
returned exit action is `"stop_loss"`. -/
theorem C2_stop_priority (rm : RiskManager) (symbol : String) (price : ℚ)
    (pos : Position) (h : lookupPos rm.positions symbol = some pos) :
    (should_stop_loss (pos.update_price price) = true →
        (rm.update_position symbol price).2 = some "stop_loss")
    ∧ ((rm.update_position symbol price).2 = some "take_profit_1" →
        should_stop_loss (pos.update_price price) = false
        ∧ pos.tp1_hit = false
        ∧ should_take_profit_1 (pos.update_price price) = true)
    ∧ ((rm.update_position symbol price).2 = some "take_profit_2" →
        should_stop_loss (pos.update_price price) = false
        ∧ pos.tp1_hit = true ∧ pos.tp2_hit = false
        ∧ should_take_profit_2 (pos.update_price price) = true) := by
  have h1 : (pos.update_price price).tp1_hit = pos.tp1_hit := rfl
  have h2 : (pos.update_price price).tp2_hit = pos.tp2_hit := rfl
  unfold RiskManager.update_position
  rw [h]
  cases hs : should_stop_loss (pos.update_price price) <;>
    cases ht1 : pos.tp1_hit <;> cases ht2 : pos.tp2_hit <;>
    cases hp1 : should_take_profit_1 (pos.update_price price) <;>
    cases hp2 : should_take_profit_2 (pos.update_price price) <;>
    simp_all +decide

/-- Witness for C2: `posBoth` satisfies both the stop and the TP1 condition
at price 17, and the update returns `"stop_loss"`. -/
theorem C2_stop_priority_witness :
    should_stop_loss (posBoth.update_price 17) = true
    ∧ should_take_profit_1 (posBoth.update_price 17) = true
    ∧ (rmBoth.update_position "W" 17).2 = some "stop_loss" :=
  ⟨by decide, by decide,
    (C2_stop_priority rmBoth "W" 17 posBoth (by decide)).1 (by decide)⟩

/-- C8: across all risk-manager operations, `current_capital` changes only on
a `close_position` call, and then by exactly the realized PnL of the closed
tranche (`RMOp.capitalDelta`); opens, price updates and queries never touch
capital. -/
theorem C8_capital_only_realized (rm : RiskManager) (op : RMOp) :
    (RMOp.step rm op).current_capital = rm.current_capital + RMOp.capitalDelta rm op
    ∧ (RMOp.isClose op = false →
        (RMOp.step rm op).current_capital = rm.current_capital) := by
  have main : (RMOp.step rm op).current_capital
      = rm.current_capital + RMOp.capitalDelta rm op := by
    cases op with
    | opn signal quantity =>
        simp [RMOp.step, RMOp.capitalDelta, RiskManager.open_position]
    | update symbol price =>
        simp only [RMOp.step, RMOp.capitalDelta, RiskManager.update_position]
        cases hl : lookupPos rm.positions symbol
        · simp
        · simp only []
          split_ifs <;> simp
    | close symbol reason closeFrac =>
        simp only [RMOp.step, RMOp.capitalDelta, RiskManager.close_position]
        cases hl : lookupPos rm.positions symbol
        · simp
        · simp only []
          split_ifs <;> simp
    | query_risk => simp [RMOp.step, RMOp.capitalDelta]
    | query_drawdown =>
        simp only [RMOp.step, RMOp.capitalDelta, RiskManager.drawdown_peak_update]
        split_ifs <;> simp
    | query_summary =>
        simp only [RMOp.step, RMOp.capitalDelta, RiskManager.drawdown_peak_update]
        split_ifs <;> simp
  refine ⟨main, fun hnc => ?_⟩
  have hz : RMOp.capitalDelta rm op = 0 := by
    cases op <;> simp_all [RMOp.isClose, RMOp.capitalDelta]
  rw [main, hz, add_zero]

/-- Witness for C8: a concrete price update leaves capital unchanged. -/
theorem C8_capital_only_realized_witness :
    (RMOp.step rmBoth (RMOp.update "W" 17)).current_capital
      = rmBoth.current_capital :=
  (C8_capital_only_realized rmBoth (RMOp.update "W" 17)).2 rfl

/-- C4 (amended): immediately before every admitted open — whenever
`can_open_position` returns true — the portfolio risk recomputed from live
state is strictly below the configured `max_portfolio_risk` ceiling.
(Immediately after the open the recomputed risk may exceed the ceiling, as
`C4_counterexample` shows: the gate checks the risk without the candidate
position's own contribution.) -/
theorem C4_risk_below_ceiling_on_admission (rm : RiskManager)
    (signal : TradingSignal) (h : rm.can_open_position signal = true) :
    rm.get_portfolio_risk < rm.max_portfolio_risk := by
  unfold RiskManager.can_open_position at h
  split_ifs at h with h1 h2 h3 h4 h5
  exact not_le.mp h3

/-- Counterexample to C4 as stated: `rm4` (risk 0.092, capital 10000) admits
`sig4`; the sized quantity is 95, and immediately after the admitted open the
recomputed portfolio risk is 0.111 > 0.10 = `max_portfolio_risk`. -/
theorem C4_counterexample :
    rm4.can_open_position sig4 = true
    ∧ rm4.calculate_position_size sig4 = 95
    ∧ rm4.max_portfolio_risk < ((rm4.open_position sig4 95).1).get_portfolio_risk := by
  refine ⟨?_, ?_, ?_⟩ <;>
    norm_num +decide [rm4, sig4, riskPos, rmDefault10k, RiskManager.new,
      RiskManager.can_open_position, RiskManager.get_portfolio_risk,
      RiskManager.get_current_drawdown, RiskManager.calculate_risk_reward,
      RiskManager.calculate_position_size, RiskManager.open_position,
      Position.postInit, pyRound, roundHalfEven, lookupPos, setPos]

/-- Witness for C4 at the concrete admitted open `rm4` / `sig4`. -/
theorem C4_risk_below_ceiling_on_admission_witness :
    rm4.get_portfolio_risk < rm4.max_portfolio_risk :=
  C4_risk_below_ceiling_on_admission rm4 sig4
    (by norm_num +decide [rm4, sig4, riskPos, rmDefault10k, RiskManager.new,
      RiskManager.can_open_position, RiskManager.get_portfolio_risk,
      RiskManager.get_current_drawdown, RiskManager.calculate_risk_reward,
      lookupPos])

/-- C3 (amended): while the engine's trading-enabled flag is false, the
candle handler `_on_market_data` returns immediately: the strategy is not
invoked, no signal is generated or logged, open positions are not
price-updated from the candle path, and in particular no signal ever reaches
the risk manager (`can_open_position` / `open_position` are never called). -/
theorem C3_disabled_candle_noop {σ : Type} (eng : TradingEngine σ)
    (ohlcv : OHLCVData) (h : eng.is_trading_enabled = false) :
    eng.on_market_data ohlcv = eng := by
  unfold TradingEngine.on_market_data
  rw [h]
  rfl

/-- Counterexample to C3 as stated: `engC3` has trading disabled, its
strategy would emit the BUY signal `sigC3` on any candle, and its open
position's price (10) differs from the candle close (12); yet processing the
candle changes nothing — no signal is counted and the position keeps its
stale price, contradicting "the Strategy Contract is still invoked and any
resulting signal is generated" and "open positions are still price-updated". -/
theorem C3_counterexample :
    engC3.is_trading_enabled = false
    ∧ (engC3.strategy_update engC3.strategy candleC3).2 = some sigC3
    ∧ ¬ candleC3.close = posC3.current_price
    ∧ engC3.on_market_data candleC3 = engC3
    ∧ (engC3.on_market_data candleC3).signals_generated = 0
    ∧ lookupPos (engC3.on_market_data candleC3).risk_manager.positions
        "NOICEUSDT" = some posC3 :=
  ⟨rfl, rfl, by decide, rfl, rfl, by decide⟩

/-- Witness for C3 at the concrete disabled engine `engC3`. -/
theorem C3_disabled_candle_noop_witness :
    engC3.on_market_data candleC3 = engC3 :=
  C3_disabled_candle_noop engC3 candleC3 rfl

/-- Counterexample to C1 as stated: in the NOICEUSDT scenario, after TP1 has
fired (state `engNoiceA`, capital 10000.5), the tick to 0.99 does trigger the
breakeven stop, but the remaining 5 units are closed at the current price
0.99, not at the stop price 1.0: the second tranche realizes −0.05 (capital
moves from 10000.5 to 10000.45), not "exactly zero", and the archived
position records close price 0.99. -/
theorem C1_counterexample :
    engNoiceB.risk_manager.current_capital
        - engNoiceA.risk_manager.current_capital = -(1/20)
    ∧ ¬ engNoiceB.risk_manager.current_capital
        - engNoiceA.risk_manager.current_capital = 0
    ∧ engNoiceB.risk_manager.position_history.map Position.current_price
        = [99/100] := by
  refine ⟨?_, ?_, ?_⟩ <;>
    norm_num +decide [engNoiceB, engNoiceA, engNoice, rmNoiceOpen, sigNoice,
      rmDefault10k, RiskManager.new, TradingEngine.update_positions,
      TradingEngine.handle_position_exit, RiskManager.open_position,
      RiskManager.update_position, RiskManager.close_position,
      Position.postInit, Position.update_price, Position.close_price_diff,
      should_stop_loss, should_take_profit_1, should_take_profit_2,
      lookupPos, setPos, erasePos]

/-- C1 (amended): open LONG NOICEUSDT qty=10 @ entry=1.0, stop=0.95,
TP1=1.10, TP2=1.20. The tick to 1.10 fires TP1: 5 units close realizing +0.5
into capital, the stop moves to 1.0, the status becomes PARTIAL with 5 units
remaining. The next tick to 0.99 triggers the now-breakeven stop and closes
the remaining 5 units at the current price 0.99, so the second tranche
realizes −0.05: final capital 10000.45, the position leaves the open set and
is archived CLOSED with total realized PnL 0.45. -/
theorem C1_amended_scenario :
    (rmNoiceOpen.update_position "NOICEUSDT" (11/10)).2 = some "take_profit_1"
    ∧ engNoiceA.risk_manager.current_capital = 10000 + 1/2
    ∧ (lookupPos engNoiceA.risk_manager.positions "NOICEUSDT").map
        Position.stop_loss = some 1
    ∧ (lookupPos engNoiceA.risk_manager.positions "NOICEUSDT").map
        Position.status = some .PARTIAL
    ∧ (lookupPos engNoiceA.risk_manager.positions "NOICEUSDT").map
        Position.remaining_quantity = some 5
    ∧ (lookupPos engNoiceA.risk_manager.positions "NOICEUSDT").map
        Position.tp1_hit = some true
    ∧ (engNoiceA.risk_manager.update_position "NOICEUSDT" (99/100)).2
        = some "stop_loss"
    ∧ engNoiceB.risk_manager.current_capital = 10000 + 9/20
    ∧ lookupPos engNoiceB.risk_manager.positions "NOICEUSDT" = none
    ∧ engNoiceB.risk_manager.position_history.map Position.status = [.CLOSED]
    ∧ engNoiceB.risk_manager.position_history.map Position.realized_pnl
        = [9/20] := by
  refine ⟨?_, ?_, ?_, ?_, ?_, ?_, ?_, ?_, ?_, ?_, ?_⟩ <;>
    norm_num +decide [engNoiceB, engNoiceA, engNoice, rmNoiceOpen, sigNoice,
      rmDefault10k, RiskManager.new, TradingEngine.update_positions,
      TradingEngine.handle_position_exit, RiskManager.open_position,
      RiskManager.update_position, RiskManager.close_position,
      Position.postInit, Position.update_price, Position.close_price_diff,
      should_stop_loss, should_take_profit_1, should_take_profit_2,
      lookupPos, setPos, erasePos]

/-- C5 (amended): for every admitted open (positive sized quantity at a
positive entry price), the opened quantity satisfies
`quantity × entry_price ≤ 0.95 × capital_at_open + entry_price × 5·10⁻⁹`:
the pre-rounding size respects the exact 95% cap, and rounding to 8 decimal
places can overshoot it by at most half an ulp of the quantity. -/
theorem C5_capital_cap_with_rounding (rm : RiskManager) (signal : TradingSignal)
    (hp : 0 < signal.price)
    (hq : 0 < rm.calculate_position_size signal) :
    rm.calculate_position_size signal * signal.price
      ≤ 95/100 * rm.current_capital + signal.price * (1/200000000) := by
  by_cases hd : |signal.price - signal.stop_loss| = 0
  · have hq0 : rm.calculate_position_size signal = 0 := by
      unfold RiskManager.calculate_position_size
      simp only [if_pos hd]
    rw [hq0] at hq
    exact absurd hq (lt_irrefl 0)
  · have hq2 : rm.calculate_position_size signal = pyRound (min
        (rm.current_capital * rm.max_risk_per_trade / |signal.price - signal.stop_loss|)
        (rm.current_capital * (95/100) / signal.price)) 8 := by
      unfold RiskManager.calculate_position_size
      simp only [if_neg hd]
    rw [hq2]
    set m := min
      (rm.current_capital * rm.max_risk_per_trade / |signal.price - signal.stop_loss|)
      (rm.current_capital * (95/100) / signal.price) with hm
    have h1 : pyRound m 8 ≤ m + 1/200000000 := pyRound8_le m
    have h2 : m ≤ rm.current_capital * (95/100) / signal.price := min_le_right _ _
    have h3 : pyRound m 8 * signal.price
        ≤ (rm.current_capital * (95/100) / signal.price + 1/200000000) * signal.price :=
      mul_le_mul_of_nonneg_right (by linarith) (le_of_lt hp)
    have h4 : rm.current_capital * (95/100) / signal.price * signal.price
        = rm.current_capital * (95/100) :=
      div_mul_cancel₀ _ (ne_of_gt hp)
    have h5 : (rm.current_capital * (95/100) / signal.price + 1/200000000) * signal.price
        = 95/100 * rm.current_capital + signal.price * (1/200000000) := by
      rw [add_mul, h4]
      ring
    linarith

/-- Counterexample to C5 as stated: with capital 10000 the signal `sig5`
(entry 3, stop 2.999) is admitted with a positive quantity, yet the rounded
quantity times the entry price is 9500.00000001, strictly above
0.95 × 10000 = 9500. -/
theorem C5_counterexample :
    rmDefault10k.can_open_position sig5 = true
    ∧ 0 < rmDefault10k.calculate_position_size sig5
    ∧ 95/100 * rmDefault10k.current_capital
        < rmDefault10k.calculate_position_size sig5 * sig5.price := by
  refine ⟨?_, ?_, ?_⟩ <;>
    norm_num +decide [rmDefault10k, sig5, RiskManager.new,
      RiskManager.can_open_position, RiskManager.get_portfolio_risk,
      RiskManager.get_current_drawdown, RiskManager.calculate_risk_reward,
      RiskManager.calculate_position_size, pyRound, roundHalfEven, lookupPos,
      abs_of_pos]

/-- Witness for C5 at the concrete admitted open `rmDefault10k` / `sig5`. -/
theorem C5_capital_cap_with_rounding_witness :
    0 < sig5.price
    ∧ 0 < rmDefault10k.calculate_position_size sig5
    ∧ rmDefault10k.calculate_position_size sig5 * sig5.price
        ≤ 95/100 * rmDefault10k.current_capital + sig5.price * (1/200000000) :=
  ⟨by norm_num [sig5], by
    norm_num +decide [rmDefault10k, sig5, RiskManager.new,
      RiskManager.calculate_position_size, pyRound, roundHalfEven, abs_of_pos],
    C5_capital_cap_with_rounding rmDefault10k sig5 (by norm_num [sig5]) (by
      norm_num +decide [rmDefault10k, sig5, RiskManager.new,
        RiskManager.calculate_position_size, pyRound, roundHalfEven, abs_of_pos])⟩

/-- C6: for every signal (under nonnegative capital and risk fraction and a
positive price), `calculate_position_size` returns
`min(capital × max_risk_per_trade ÷ |price − stop|, 0.95 × capital ÷ price)`
rounded to 8 decimal digits (the degenerate `price = stop` case returns 0,
which the formula also yields under rational division-by-zero), the result is
never negative, and in the scenario capital=10000, max_risk=0.02, entry=100,
stop=98 the returned quantity is 95. -/
theorem C6_position_size_formula (rm : RiskManager) (signal : TradingSignal)
    (hc : 0 ≤ rm.current_capital) (hr : 0 ≤ rm.max_risk_per_trade)
    (hp : 0 < signal.price) :
    rm.calculate_position_size signal
        = pyRound (min
            (rm.current_capital * rm.max_risk_per_trade / |signal.price - signal.stop_loss|)
            (95/100 * rm.current_capital / signal.price)) 8
    ∧ 0 ≤ rm.calculate_position_size signal
    ∧ rmDefault10k.calculate_position_size sigC6 = 95 := by
  have hb : (0:ℚ) ≤ 95/100 * rm.current_capital / signal.price := by positivity
  have key : rm.calculate_position_size signal
      = pyRound (min
          (rm.current_capital * rm.max_risk_per_trade / |signal.price - signal.stop_loss|)
          (95/100 * rm.current_capital / signal.price)) 8 := by
    by_cases hd : |signal.price - signal.stop_loss| = 0
    · have h0 : rm.calculate_position_size signal = 0 := by
        unfold RiskManager.calculate_position_size
        simp only [if_pos hd]
      rw [h0, hd, div_zero, min_eq_left hb]
      norm_num [pyRound, roundHalfEven]
    · unfold RiskManager.calculate_position_size
      simp only [if_neg hd]
      rw [mul_comm rm.current_capital (95/100 : ℚ)]
  refine ⟨key, ?_, ?_⟩
  · rw [key]
    refine pyRound8_nonneg _ (le_min ?_ hb)
    exact div_nonneg (mul_nonneg hc hr) (abs_nonneg _)
  · norm_num +decide [rmDefault10k, sigC6, RiskManager.new,
      RiskManager.calculate_position_size, pyRound, roundHalfEven, abs_of_pos]

/-- Witness for C6 at the concrete state `rmDefault10k` / `sigC6`. -/
theorem C6_position_size_formula_witness :
    (0:ℚ) ≤ rmDefault10k.current_capital
    ∧ (0:ℚ) ≤ rmDefault10k.max_risk_per_trade
    ∧ (0:ℚ) < sigC6.price
    ∧ rmDefault10k.calculate_position_size sigC6 = 95 := by
  have h1 : (0:ℚ) ≤ rmDefault10k.current_capital := by
    norm_num [rmDefault10k, RiskManager.new]
  have h2 : (0:ℚ) ≤ rmDefault10k.max_risk_per_trade := by
    norm_num [rmDefault10k, RiskManager.new]
  have h3 : (0:ℚ) < sigC6.price := by norm_num [sigC6]
  exact ⟨h1, h2, h3, (C6_position_size_formula rmDefault10k sigC6 h1 h2 h3).2.2⟩

/-- C7 (amended): for every OPEN position holding more than dust
(`remaining_quantity > 0.002`), handling a TP1 trigger
(`close_position` with reason `"take_profit_1"` and fraction 0.5) leaves the
position with exactly 50% of the pre-trigger remaining quantity, adds the
realized PnL of the closed half to capital, moves the stop-loss to the entry
price, sets `tp1_hit`, sets the status to PARTIAL, and keeps the position in
the open set. (At or below the 0.002 dust bound the remainder falls under the
0.001 finalization threshold and the position is instead CLOSED and archived,
as `C7_counterexample` shows.) -/
theorem C7_tp1_half_close (rm : RiskManager) (symbol : String) (pos : Position)
    (h : lookupPos rm.positions symbol = some pos)
    (_hopen : pos.status = .OPEN)
    (hq : 1/500 < pos.remaining_quantity) :
    ((rm.close_position symbol "take_profit_1" (1/2)).2).map
        Position.remaining_quantity = some (pos.remaining_quantity / 2)
    ∧ (rm.close_position symbol "take_profit_1" (1/2)).1.current_capital
        = rm.current_capital + pos.close_price_diff * (pos.remaining_quantity / 2)
    ∧ ((rm.close_position symbol "take_profit_1" (1/2)).2).map
        Position.stop_loss = some pos.entry_price
    ∧ ((rm.close_position symbol "take_profit_1" (1/2)).2).map
        Position.tp1_hit = some true
    ∧ ((rm.close_position symbol "take_profit_1" (1/2)).2).map
        Position.status = some PositionStatus.PARTIAL
    ∧ lookupPos (rm.close_position symbol "take_profit_1" (1/2)).1.positions
        symbol = (rm.close_position symbol "take_profit_1" (1/2)).2 := by
  have hdust0 : ¬(pos.remaining_quantity - pos.remaining_quantity * (1/2) ≤ 1/1000) := by
    intro hcon
    linarith
  unfold RiskManager.close_position
  rw [h]
  dsimp only
  rw [if_pos rfl]
  dsimp only
  rw [if_neg hdust0]
  refine ⟨?_, ?_, ?_, ?_, ?_, ?_⟩
  · simp
    ring
  · simp
    exact Or.inl (by ring)
  · simp
  · simp
  · simp
  · simp [lookupPos_setPos]

/-- Counterexample to C7 as stated: the OPEN position `posDust` holds
remaining quantity 0.002; handling its TP1 trigger halves it to 0.001, which
is at the finalization threshold, so the position ends CLOSED (not PARTIAL)
and is removed from the open set and archived. -/
theorem C7_counterexample :
    posDust.status = PositionStatus.OPEN
    ∧ ((rmDust.close_position "D" "take_profit_1" (1/2)).2).map
        Position.status = some PositionStatus.CLOSED
    ∧ ¬ ((rmDust.close_position "D" "take_profit_1" (1/2)).2).map
        Position.status = some PositionStatus.PARTIAL
    ∧ lookupPos (rmDust.close_position "D" "take_profit_1" (1/2)).1.positions
        "D" = none := by
  refine ⟨rfl, ?_, ?_, ?_⟩ <;>
    norm_num +decide [rmDust, posDust, RiskManager.close_position,
      Position.close_price_diff, lookupPos, setPos, erasePos]

/-- Witness for C7 at the concrete ample position `rmW7` / `posW7`. -/
theorem C7_tp1_half_close_witness :
    lookupPos rmW7.positions "W7" = some posW7
    ∧ (1:ℚ)/500 < posW7.remaining_quantity
    ∧ ((rmW7.close_position "W7" "take_profit_1" (1/2)).2).map
        Position.status = some PositionStatus.PARTIAL := by
  have h1 : lookupPos rmW7.positions "W7" = some posW7 := by decide
  have h2 : posW7.status = PositionStatus.OPEN := rfl
  have h3 : (1:ℚ)/500 < posW7.remaining_quantity := by norm_num [posW7]
  exact ⟨h1, h3, (C7_tp1_half_close rmW7 "W7" posW7 h1 h2 h3).2.2.2.2.1⟩

/-- C10: `winning_trades` is incremented on every `close_position` call whose
realized PnL is positive — partial closes included — while `total_trades` is
incremented only by `open_position`; hence the NOICEUSDT position opened once
and closed profitably in two tranches contributes 2 to `winning_trades` and 1
to `total_trades`, and the reported `win_rate` is 200%, exceeding 100%. -/
theorem C10_win_counting :
    (∀ (rm : RiskManager) (signal : TradingSignal) (q : ℚ),
        (rm.open_position signal q).1.total_trades = rm.total_trades + 1
        ∧ (rm.open_position signal q).1.winning_trades = rm.winning_trades)
    ∧ (∀ (rm : RiskManager) (symbol reason : String) (closeFrac : ℚ)
        (pos : Position),
        lookupPos rm.positions symbol = some pos →
        0 < pos.close_price_diff * (pos.remaining_quantity * closeFrac) →
        (rm.close_position symbol reason closeFrac).1.winning_trades
          = rm.winning_trades + 1)
    ∧ rm10e.total_trades = 1
    ∧ rm10e.winning_trades = 2
    ∧ rm10e.summary_win_rate = 200
    ∧ (100:ℚ) < rm10e.summary_win_rate := by
  refine ⟨?_, ?_, ?_, ?_, ?_, ?_⟩
  · intro rm signal q
    constructor <;> simp [RiskManager.open_position]
  · intro rm symbol reason closeFrac pos h hpos
    unfold RiskManager.close_position
    rw [h]
    dsimp only
    rw [if_pos hpos]
    split_ifs <;> rfl
  all_goals
    norm_num +decide [rm10e, rm10d, rm10c, rm10b, rmNoiceOpen, sigNoice,
      rmDefault10k, RiskManager.new, RiskManager.open_position,
      RiskManager.update_position, RiskManager.close_position,
      RiskManager.summary_win_rate, pyRound, roundHalfEven,
      Position.postInit, Position.update_price, Position.close_price_diff,
      should_stop_loss, should_take_profit_1, should_take_profit_2,
      lookupPos, setPos, erasePos]

/-- Witness for C10: a concrete profitable full close bumps
`winning_trades` by one. -/
theorem C10_win_counting_witness :
    lookupPos rmW7.positions "W7" = some posW7
    ∧ 0 < posW7.close_price_diff * (posW7.remaining_quantity * 1)
    ∧ (rmW7.close_position "W7" "stop_loss" 1).1.winning_trades
        = rmW7.winning_trades + 1 := by
  have h1 : lookupPos rmW7.positions "W7" = some posW7 := by decide
  have h2 : (0:ℚ) < posW7.close_price_diff * (posW7.remaining_quantity * 1) := by
    norm_num [posW7, Position.close_price_diff]
  exact ⟨h1, h2, C10_win_counting.2.1 rmW7 "W7" "stop_loss" 1 posW7 h1 h2⟩
